import Mathlib

/-!
Verification of the `image-to-3d` blender-scripts pipeline.

Shallow embedding of the three Python scripts:
* `add_foundation_blender.py` — the foundation stage (`add_circular_foundation`
  and its CLI `main`),
* `process_with_foundation.py` — the pipeline driver,
* `glb_to_stl.py` — the repair/smoothing stage.

Numeric values are modelled as rationals.  Python's `float('inf')` /
`float('-inf')` accumulator seeds are modelled as `⊤ : WithTop ℚ` and
`⊥ : WithBot ℚ` (the code only ever uses `+inf` as the seed of a running
minimum and `-inf` as the seed of a running maximum).  External effects
(subprocess calls, file removals, exports) are modelled as explicit result
data; the success or failure of an external call is an input of the model.
-/

/-! ## Geometry: vectors, transforms, mesh objects -/

/-- A 3-component vector (`mathutils.Vector`). -/
structure Vec3 where
  x : ℚ
  y : ℚ
  z : ℚ
deriving DecidableEq

/-- The affine part of a Blender 4×4 world matrix (`obj.matrix_world`):
the top three rows; applying it to a 3-vector uses the fourth column as
a translation, exactly as `matrix_world @ Vector(corner)` does. -/
structure Mat4 where
  m00 : ℚ
  m01 : ℚ
  m02 : ℚ
  m03 : ℚ
  m10 : ℚ
  m11 : ℚ
  m12 : ℚ
  m13 : ℚ
  m20 : ℚ
  m21 : ℚ
  m22 : ℚ
  m23 : ℚ
deriving DecidableEq

/-- Application of a world matrix to a corner (`obj.matrix_world @ corner`). -/
def matApply (m : Mat4) (v : Vec3) : Vec3 :=
  ⟨m.m00 * v.x + m.m01 * v.y + m.m02 * v.z + m.m03,
   m.m10 * v.x + m.m11 * v.y + m.m12 * v.z + m.m13,
   m.m20 * v.x + m.m21 * v.y + m.m22 * v.z + m.m23⟩

/-- A mesh object as seen by `add_circular_foundation`: its local-space
bounding-box corners (`obj.bound_box`, 8 corners in Blender) and its
world transform (`obj.matrix_world`). -/
structure MeshObject where
  matrix_world : Mat4
  bound_box : List Vec3
deriving DecidableEq

/-- The world-space bounding-box corners of one object
(`[obj.matrix_world @ mathutils.Vector(corner) for corner in obj.bound_box]`). -/
def worldCorners (obj : MeshObject) : List Vec3 :=
  obj.bound_box.map (matApply obj.matrix_world)

/-- All world-space corners contributed by a list of objects, in visiting
order of the two nested loops of the script. -/
def allWorldCorners (objs : List MeshObject) : List Vec3 :=
  objs.flatMap worldCorners

/-! ## The bounding-box accumulator (lines 38–49 of `add_foundation_blender.py`) -/

/-- The running accumulator state: `min_coords` seeded with `float('inf')`
(modelled `⊤`), `max_coords` seeded with `float('-inf')` (modelled `⊥`),
one slot per axis. -/
structure AccState where
  min_coords : WithTop ℚ × WithTop ℚ × WithTop ℚ
  max_coords : WithBot ℚ × WithBot ℚ × WithBot ℚ
deriving DecidableEq

/-- The initial accumulator: `min_coords = [inf]*3`, `max_coords = [-inf]*3`. -/
def initAcc : AccState :=
  ⟨(⊤, ⊤, ⊤), (⊥, ⊥, ⊥)⟩

/-- One iteration of the inner loop body: fold a single world-space corner
into the running component-wise minima and maxima. -/
def updateCorner (st : AccState) (c : Vec3) : AccState :=
  ⟨(min st.min_coords.1 (c.x : WithTop ℚ),
    min st.min_coords.2.1 (c.y : WithTop ℚ),
    min st.min_coords.2.2 (c.z : WithTop ℚ)),
   (max st.max_coords.1 (c.x : WithBot ℚ),
    max st.max_coords.2.1 (c.y : WithBot ℚ),
    max st.max_coords.2.2 (c.z : WithBot ℚ))⟩

/-- The combined bounding box computation: the outer loop over mesh objects,
the inner loop over that object's transformed corners. -/
def accumulateBBox (objs : List MeshObject) : AccState :=
  objs.foldl (fun st obj => (worldCorners obj).foldl updateCorner st) initAcc

/-- An axis-aligned bounding box with finite coordinates. -/
structure BBox where
  min_coords : Vec3
  max_coords : Vec3
deriving DecidableEq

/-- The finite bounding box extracted from the accumulator.  When at least one
corner has been folded in, every component is finite and the defaults are
never used. -/
def computedBBox (objs : List MeshObject) : BBox :=
  let st := accumulateBBox objs
  ⟨⟨st.min_coords.1.untop' 0, st.min_coords.2.1.untop' 0, st.min_coords.2.2.untop' 0⟩,
   ⟨st.max_coords.1.unbot' 0, st.max_coords.2.1.unbot' 0, st.max_coords.2.2.unbot' 0⟩⟩

/-! ## Foundation sizing (lines 51–64 of `add_foundation_blender.py`) -/

/-- The derived foundation parameters, named after the script's variables. -/
structure FoundationSpec where
  foundation_radius : ℚ
  foundation_thickness : ℚ
  center_x : ℚ
  center_y : ℚ
  foundation_z : ℚ
deriving DecidableEq

/-- The sizing and placement computation, line by line from the script. -/
def foundationSpecOf (b : BBox) (margin_ratio thickness_ratio min_thickness : ℚ) :
    FoundationSpec :=
  let x_size := b.max_coords.x - b.min_coords.x
  let y_size := b.max_coords.y - b.min_coords.y
  let z_min := b.min_coords.z
  let max_dimension := max x_size y_size
  let foundation_radius := (max_dimension / 2) * (1 + margin_ratio)
  let foundation_thickness := max (max_dimension * thickness_ratio) min_thickness
  let center_x := (b.min_coords.x + b.max_coords.x) / 2
  let center_y := (b.min_coords.y + b.max_coords.y) / 2
  let foundation_z := z_min - foundation_thickness / 2
  ⟨foundation_radius, foundation_thickness, center_x, center_y, foundation_z⟩

/-- The `max_dimension` quantity of a bounding box. -/
def maxDimension (b : BBox) : ℚ :=
  max (b.max_coords.x - b.min_coords.x) (b.max_coords.y - b.min_coords.y)

/-- Scaling a vector by a factor. -/
def scaleVec (k : ℚ) (v : Vec3) : Vec3 :=
  ⟨k * v.x, k * v.y, k * v.z⟩

/-- Scaling every coordinate of a bounding box by a factor. -/
def scaleBBox (k : ℚ) (b : BBox) : BBox :=
  ⟨scaleVec k b.min_coords, scaleVec k b.max_coords⟩

/-! ## File extension (`os.path.splitext(output_path)[1].lower()`) -/

/-- The extension part of `os.path.splitext`, CPython semantics: take the
last path component; the extension starts at its last dot, unless every
character before that dot (within the component) is itself a dot. -/
def splitextExt (p : String) : String :=
  let base := (p.toList.reverse.takeWhile (fun c => c != '/')).reverse
  let rest := base.dropWhile (fun c => c == '.')
  if rest.contains '.' then
    String.mk ('.' :: (rest.reverse.takeWhile (fun c => c != '.')).reverse)
  else ""

/-- `file_ext = os.path.splitext(output_path)[1].lower()` (line 86); the
lower-casing is applied character-wise (extensions are ASCII). -/
def fileExt (output_path : String) : String :=
  String.mk ((splitextExt output_path).data.map Char.toLower)

/-! ## The foundation stage (`add_circular_foundation`) -/

/-- Which exporter line 88–94 of the script invoked. -/
inductive ExportKind where
  | stl
  | gltf
deriving DecidableEq

/-- The observable outcome of `add_circular_foundation`.  `noMeshes` and
`unsupported` are the two `return False` paths (no file is written on
either); `exported k spec` is the `return True` path after the cylinder
described by `spec` was generated, joined with the model, and exported by
exporter `k`. -/
inductive StageOutcome where
  | noMeshes
  | unsupported (ext : String)
  | exported (kind : ExportKind) (spec : FoundationSpec)
deriving DecidableEq

/-- `add_circular_foundation(glb_path, output_path, ...)`, with the imported
scene's mesh objects made explicit.  Cylinder generation and the join are
modelled by the `FoundationSpec` carried in the outcome: the script performs
them unconditionally before the export-format dispatch. -/
def add_circular_foundation (objs : List MeshObject) (output_path : String)
    (margin_ratio thickness_ratio min_thickness : ℚ) : StageOutcome :=
  if objs.isEmpty then .noMeshes
  else
    let spec := foundationSpecOf (computedBBox objs) margin_ratio thickness_ratio min_thickness
    let ext := fileExt output_path
    if ext = ".stl" then .exported .stl spec
    else if ext = ".glb" ∨ ext = ".gltf" then .exported .gltf spec
    else .unsupported ext

/-! ## The foundation tool's CLI `main` (lines 102–128) -/

/-- Observable outcome of `main()` in `add_foundation_blender.py`.
`usage` is the early return of the argument-count guard; `indexError` is an
uncaught `IndexError` from `argv[0]`/`argv[1]` after stripping; `valueError`
is an uncaught `ValueError` from `float(argv[2])`/`float(argv[3])`;
`notFound` is the missing-input early return (before
`add_circular_foundation` and hence before any import or file output);
`ran` means the stage was invoked with these arguments. -/
inductive FMainOutcome where
  | usage
  | indexError
  | valueError
  | notFound (input : String)
  | ran (input output : String) (margin_ratio thickness_ratio : ℚ)
deriving DecidableEq

/-- Everything after the first `"--"`, or the list unchanged when there is
none (`argv = argv[argv.index("--") + 1:]` guarded by `"--" in argv`). -/
def dropThroughSep : List String → List String
  | [] => []
  | a :: rest => if a = "--" then rest else dropThroughSep rest

/-- The argument-stripping step of `main`. -/
def stripArgs (argv : List String) : List String :=
  if argv.contains "--" then dropThroughSep argv else argv

/-- `main()` of `add_foundation_blender.py`, in source order: the guard
reads the RAW `sys.argv` length (line 104); the positional arguments are
read from the stripped list (lines 114-115, uncaught `IndexError` when
absent); the optional ratios go through `float` (lines 116-117, modelled by
the `parseFloat` parameter, `none` = uncaught `ValueError`); only then the
input-existence check runs (line 119). -/
def add_foundation_main (sysArgv : List String) (pathExists : String → Bool)
    (parseFloat : String → Option ℚ) : FMainOutcome :=
  if sysArgv.length < 6 then .usage
  else
    let argv := stripArgs sysArgv
    match argv[0]?, argv[1]? with
    | some input_file, some output_file =>
        match (if argv.length > 2 then parseFloat (argv.getD 2 "") else some 0.1) with
        | none => .valueError
        | some margin_ratio =>
            match (if argv.length > 3 then parseFloat (argv.getD 3 "") else some 0.05) with
            | none => .valueError
            | some thickness_ratio =>
                if pathExists input_file = false then .notFound input_file
                else .ran input_file output_file margin_ratio thickness_ratio
    | _, _ => .indexError

/-- A stub of Python's `float()`: accepts the numeric literals the fixtures
use and rejects (raises `ValueError` on) everything else. -/
def pyFloatStub : String → Option ℚ :=
  fun s => if s = "0.15" then some 0.15 else if s = "0.08" then some 0.08 else none

/-! ## The pipeline driver (`process_with_foundation.py`) -/

/-- Terminal outcome of the driver's `main`. -/
inductive DriverOutcome where
  | usage
  | notFound (input : String)
  | errSmoothing
  | errConvert
  | errFoundation
  | done
deriving DecidableEq

/-- The temp artifacts of one pipeline run: the driver's
`$TMP/smoothed_temp.stl` and `$TMP/smoothed_temp.glb`, and the repair
stage's own `temp.stl` (created in the working directory by
`glb_to_stl.py`). -/
inductive TempFile where
  | smoothedStl
  | smoothedGlb
  | repairTempStl
deriving DecidableEq

/-- The three external subprocess invocations of the driver, in order. -/
inductive ExtCall where
  | pyGlbToStl
  | assimpExport
  | blenderFoundation
deriving DecidableEq

/-- The environment a driver run meets: whether each subprocess exits
successfully, and which temp files exist when the driver's
`os.path.exists` cleanup guards inspect them. -/
structure DriverEnv where
  smoothOk : Bool
  convertOk : Bool
  foundationOk : Bool
  smoothedStlExists : Bool
  smoothedGlbExists : Bool
  repairTempStlExists : Bool
deriving DecidableEq

/-- A driver run's observable behavior: its outcome, the subprocesses it
launched, and the temp files it removed. -/
structure DriverRun where
  outcome : DriverOutcome
  calls : List ExtCall
  removed : List TempFile
deriving DecidableEq

/-- `main()` of `process_with_foundation.py`.  Stage-1 failure returns with
no cleanup; stage-2 failure removes only the smoothed STL (if it exists);
the `finally` around stage 3 removes the smoothed STL and the temp GLB
(those that exist) on both the failure and the success path.  The repair
stage's `temp.stl` never appears in any cleanup list. -/
def process_with_foundation_main (argv : List String) (pathExists : String → Bool)
    (env : DriverEnv) : DriverRun :=
  if argv.length < 3 then ⟨.usage, [], []⟩
  else
    let input_glb := argv.getD 1 ""
    if pathExists input_glb = false then ⟨.notFound input_glb, [], []⟩
    else if env.smoothOk = false then ⟨.errSmoothing, [.pyGlbToStl], []⟩
    else if env.convertOk = false then
      ⟨.errConvert, [.pyGlbToStl, .assimpExport],
        if env.smoothedStlExists then [.smoothedStl] else []⟩
    else
      let cleanup := (if env.smoothedStlExists then [TempFile.smoothedStl] else []) ++
        (if env.smoothedGlbExists then [TempFile.smoothedGlb] else [])
      if env.foundationOk = false then
        ⟨.errFoundation, [.pyGlbToStl, .assimpExport, .blenderFoundation], cleanup⟩
      else ⟨.done, [.pyGlbToStl, .assimpExport, .blenderFoundation], cleanup⟩

/-! ## The repair stage (`glb_to_stl.py`, lines 23–43) -/

/-- Result of the `mesh.smoothed()` attempt: success, `AttributeError`
(which falls through to `filter_laplacian`), or any other exception
(caught by the outer handler, which only warns). -/
inductive SmoothedCallResult where
  | ok
  | attrError
  | otherError
deriving DecidableEq

/-- Which repair sub-steps succeed on a given mesh. -/
structure RepairEnv where
  fill_holes_ok : Bool
  unique_faces_ok : Bool
  remove_unreferenced_ok : Bool
  smoothed_call : SmoothedCallResult
  filter_laplacian_ok : Bool
deriving DecidableEq

/-- Outcome of the repair script's mesh-processing section: either an
uncaught exception aborts the script at the named call, or processing
reaches the export with the warnings printed along the way. -/
inductive RepairOutcome where
  | aborted (step : String)
  | finished (warnings : List String)
deriving DecidableEq

/-- The repair/smoothing section of `glb_to_stl.py`: `fill_holes` is inside
`try/except` (warn and continue); `update_faces(unique_faces())` and
`remove_unreferenced_vertices()` are NOT guarded, so their failure
propagates; the smoothing block catches `AttributeError` (then tries
`filter_laplacian`, itself guarded) and any other exception (warn). -/
def glb_to_stl_repair (env : RepairEnv) : RepairOutcome :=
  let w1 : List String := if env.fill_holes_ok then [] else ["Could not fill holes"]
  if env.unique_faces_ok = false then .aborted "update_faces"
  else if env.remove_unreferenced_ok = false then .aborted "remove_unreferenced_vertices"
  else
    let w2 :=
      match env.smoothed_call with
      | .ok => w1
      | .otherError => w1 ++ ["Could not smooth mesh"]
      | .attrError =>
          if env.filter_laplacian_ok then w1 else w1 ++ ["Could not smooth mesh"]
    .finished w2

/-! ## Concrete fixtures used by counterexamples and witnesses -/

/-- The identity world transform. -/
def idMat : Mat4 :=
  ⟨1, 0, 0, 0, 0, 1, 0, 0, 0, 0, 1, 0⟩

/-- A degenerate mesh object: all eight bounding-box corners coincide at the
origin (point geometry). -/
def pointObj : MeshObject :=
  ⟨idMat, List.replicate 8 ⟨0, 0, 0⟩⟩

/-- A unit-cube mesh object with the identity transform. -/
def unitCubeObj : MeshObject :=
  ⟨idMat,
   [⟨0, 0, 0⟩, ⟨0, 0, 1⟩, ⟨0, 1, 1⟩, ⟨0, 1, 0⟩,
    ⟨1, 0, 0⟩, ⟨1, 0, 1⟩, ⟨1, 1, 1⟩, ⟨1, 1, 0⟩]⟩

/-! ## Fold lemmas for the accumulator -/

/-- Folding a running minimum (seeded at `a`) over a list of rationals. -/
def foldMinQ (a : WithTop ℚ) (l : List ℚ) : WithTop ℚ :=
  l.foldl (fun b (q : ℚ) => min b ↑q) a

/-- Folding a running maximum (seeded at `a`) over a list of rationals. -/
def foldMaxQ (a : WithBot ℚ) (l : List ℚ) : WithBot ℚ :=
  l.foldl (fun b (q : ℚ) => max b ↑q) a

theorem foldMinQ_cons (a : WithTop ℚ) (x : ℚ) (l : List ℚ) :
    foldMinQ a (x :: l) = foldMinQ (min a ↑x) l := rfl

theorem foldMaxQ_cons (a : WithBot ℚ) (x : ℚ) (l : List ℚ) :
    foldMaxQ a (x :: l) = foldMaxQ (max a ↑x) l := rfl

theorem foldMinQ_le_init (a : WithTop ℚ) (l : List ℚ) : foldMinQ a l ≤ a := by
  induction l generalizing a with
  | nil => exact le_refl a
  | cons x l ih => exact le_trans (ih (min a ↑x)) (min_le_left _ _)

theorem init_le_foldMaxQ (a : WithBot ℚ) (l : List ℚ) : a ≤ foldMaxQ a l := by
  induction l generalizing a with
  | nil => exact le_refl a
  | cons x l ih => exact le_trans (le_max_left _ _) (ih (max a ↑x))

theorem foldMinQ_le_mem (a : WithTop ℚ) (l : List ℚ) :
    ∀ x ∈ l, foldMinQ a l ≤ ↑x := by
  induction l generalizing a with
  | nil => intro x hx; cases hx
  | cons y l ih =>
    intro x hx
    rcases List.mem_cons.mp hx with rfl | h
    · rw [foldMinQ_cons]
      exact le_trans (foldMinQ_le_init _ _) (min_le_right _ _)
    · exact ih _ x h

theorem mem_le_foldMaxQ (a : WithBot ℚ) (l : List ℚ) :
    ∀ x ∈ l, ↑x ≤ foldMaxQ a l := by
  induction l generalizing a with
  | nil => intro x hx; cases hx
  | cons y l ih =>
    intro x hx
    rcases List.mem_cons.mp hx with rfl | h
    · rw [foldMaxQ_cons]
      exact le_trans (le_max_right _ _) (init_le_foldMaxQ _ _)
    · exact ih _ x h

theorem foldMinQ_attained (a : WithTop ℚ) (l : List ℚ) :
    foldMinQ a l = a ∨ ∃ x ∈ l, foldMinQ a l = ↑x := by
  induction l generalizing a with
  | nil => exact Or.inl rfl
  | cons y l ih =>
    rcases ih (min a ↑y) with h | ⟨x, hx, h⟩
    · rcases le_total a ↑y with hle | hle
      · left
        rw [foldMinQ_cons, h]
        exact min_eq_left hle
      · right
        refine ⟨y, List.mem_cons_self _ _, ?_⟩
        rw [foldMinQ_cons, h]
        exact min_eq_right hle
    · exact Or.inr ⟨x, List.mem_cons_of_mem _ hx, h⟩

theorem foldMaxQ_attained (a : WithBot ℚ) (l : List ℚ) :
    foldMaxQ a l = a ∨ ∃ x ∈ l, foldMaxQ a l = ↑x := by
  induction l generalizing a with
  | nil => exact Or.inl rfl
  | cons y l ih =>
    rcases ih (max a ↑y) with h | ⟨x, hx, h⟩
    · rcases le_total a ↑y with hle | hle
      · right
        refine ⟨y, List.mem_cons_self _ _, ?_⟩
        rw [foldMaxQ_cons, h]
        exact max_eq_right hle
      · left
        rw [foldMaxQ_cons, h]
        exact max_eq_left hle
    · exact Or.inr ⟨x, List.mem_cons_of_mem _ hx, h⟩

theorem foldMinQ_top_mem (l : List ℚ) (h : l ≠ []) :
    ∃ x ∈ l, foldMinQ ⊤ l = ↑x := by
  rcases foldMinQ_attained ⊤ l with htop | hmem
  · obtain ⟨y, l', rfl⟩ := List.exists_cons_of_ne_nil h
    have h1 := foldMinQ_le_mem ⊤ (y :: l') y (List.mem_cons_self _ _)
    rw [htop] at h1
    exact absurd (top_le_iff.mp h1) (WithTop.coe_ne_top)
  · exact hmem

theorem foldMaxQ_bot_mem (l : List ℚ) (h : l ≠ []) :
    ∃ x ∈ l, foldMaxQ ⊥ l = ↑x := by
  rcases foldMaxQ_attained ⊥ l with hbot | hmem
  · obtain ⟨y, l', rfl⟩ := List.exists_cons_of_ne_nil h
    have h1 := mem_le_foldMaxQ ⊥ (y :: l') y (List.mem_cons_self _ _)
    rw [hbot] at h1
    exact absurd (le_bot_iff.mp h1) (WithBot.coe_ne_bot)
  · exact hmem

theorem foldMinQ_perm {l l' : List ℚ} (h : l.Perm l') (a : WithTop ℚ) :
    foldMinQ a l = foldMinQ a l' := by
  unfold foldMinQ
  exact h.foldl_eq' (fun x _ y _ z => min_right_comm z ↑x ↑y) a

theorem foldMaxQ_perm {l l' : List ℚ} (h : l.Perm l') (a : WithBot ℚ) :
    foldMaxQ a l = foldMaxQ a l' := by
  unfold foldMaxQ
  refine h.foldl_eq' (fun x _ y _ z => ?_) a
  rw [max_assoc, max_comm ((x : WithBot ℚ)) ((y : WithBot ℚ)), ← max_assoc]

theorem foldl_worldCorners_eq (objs : List MeshObject) (st : AccState) :
    objs.foldl (fun st obj => (worldCorners obj).foldl updateCorner st) st =
      (allWorldCorners objs).foldl updateCorner st := by
  induction objs generalizing st with
  | nil => simp [allWorldCorners]
  | cons o os ih =>
    simp [allWorldCorners, List.flatMap_cons, List.foldl_append, ih,
      List.foldl_cons]

theorem foldl_updateCorner_components (pts : List Vec3) (st : AccState) :
    pts.foldl updateCorner st =
      ⟨(foldMinQ st.min_coords.1 (pts.map Vec3.x),
        foldMinQ st.min_coords.2.1 (pts.map Vec3.y),
        foldMinQ st.min_coords.2.2 (pts.map Vec3.z)),
       (foldMaxQ st.max_coords.1 (pts.map Vec3.x),
        foldMaxQ st.max_coords.2.1 (pts.map Vec3.y),
        foldMaxQ st.max_coords.2.2 (pts.map Vec3.z))⟩ := by
  induction pts generalizing st with
  | nil => rfl
  | cons p ps ih =>
    rw [List.foldl_cons, ih]
    rfl

theorem accumulateBBox_components (objs : List MeshObject) :
    accumulateBBox objs =
      ⟨(foldMinQ ⊤ ((allWorldCorners objs).map Vec3.x),
        foldMinQ ⊤ ((allWorldCorners objs).map Vec3.y),
        foldMinQ ⊤ ((allWorldCorners objs).map Vec3.z)),
       (foldMaxQ ⊥ ((allWorldCorners objs).map Vec3.x),
        foldMaxQ ⊥ ((allWorldCorners objs).map Vec3.y),
        foldMaxQ ⊥ ((allWorldCorners objs).map Vec3.z))⟩ := by
  rw [accumulateBBox, foldl_worldCorners_eq, foldl_updateCorner_components]
  rfl

/-! ## Claim theorems -/

/-- C1: for every bounding box and parameters the foundation stage computes
exactly the spec's formulas for radius, thickness, centers and z placement;
in particular the box min=(-1,-1,0), max=(1,1,2) with defaults 0.1/0.05/0.05
yields radius 1.1, thickness 0.1, center (0,0), z = -0.05, and with
thickness_ratio 0.01 the min_thickness floor gives thickness 0.05. -/
theorem C1_foundation_sizing :
    (∀ (b : BBox) (mr tr mt : ℚ),
        (foundationSpecOf b mr tr mt).foundation_radius =
          (max (b.max_coords.x - b.min_coords.x) (b.max_coords.y - b.min_coords.y) / 2) *
            (1 + mr) ∧
        (foundationSpecOf b mr tr mt).foundation_thickness =
          max (max (b.max_coords.x - b.min_coords.x) (b.max_coords.y - b.min_coords.y) * tr)
            mt ∧
        (foundationSpecOf b mr tr mt).center_x = (b.min_coords.x + b.max_coords.x) / 2 ∧
        (foundationSpecOf b mr tr mt).center_y = (b.min_coords.y + b.max_coords.y) / 2 ∧
        (foundationSpecOf b mr tr mt).foundation_z =
          b.min_coords.z - (foundationSpecOf b mr tr mt).foundation_thickness / 2) ∧
    foundationSpecOf ⟨⟨-1, -1, 0⟩, ⟨1, 1, 2⟩⟩ 0.1 0.05 0.05 = ⟨1.1, 0.1, 0, 0, -0.05⟩ ∧
    (foundationSpecOf ⟨⟨-1, -1, 0⟩, ⟨1, 1, 2⟩⟩ 0.1 0.01 0.05).foundation_thickness = 0.05 := by
  refine ⟨fun b mr tr mt => ⟨rfl, rfl, rfl, rfl, rfl⟩, ?_, ?_⟩
  · norm_num [foundationSpecOf, min_def, max_def]
  · norm_num [foundationSpecOf, min_def, max_def]

/-- C5: with zero mesh objects in the imported scene, the foundation stage
fails on its distinct no-geometry path: no bounding box is used, no cylinder
is generated, and no output file written (the `noMeshes` outcome is the early
`return False` at line 36). -/
theorem C5_no_mesh_objects (output_path : String) (mr tr mt : ℚ) :
    add_circular_foundation [] output_path mr tr mt = .noMeshes := rfl

/-- C8 counterexample: the claim says every repair sub-step (hole filling,
face deduplication, unreferenced-vertex removal, smoothing) is individually
wrapped to warn-and-continue; but a failing `update_faces(unique_faces())`
(which lines 28-29 do NOT wrap) aborts the repair stage. -/
theorem C8_counterexample :
    glb_to_stl_repair ⟨true, false, true, .ok, true⟩ = .aborted "update_faces" := by decide

/-- C8 (amended): only hole filling and Laplacian smoothing are individually
wrapped to warn-and-continue; face deduplication and unreferenced-vertex
removal are unguarded and their failure aborts the repair stage. -/
theorem C8_substep_wrapping (env : RepairEnv) :
    (env.unique_faces_ok = false → glb_to_stl_repair env = .aborted "update_faces") ∧
    (env.unique_faces_ok = true → env.remove_unreferenced_ok = false →
        glb_to_stl_repair env = .aborted "remove_unreferenced_vertices") ∧
    (env.unique_faces_ok = true → env.remove_unreferenced_ok = true →
        ∃ ws, glb_to_stl_repair env = .finished ws) ∧
    (env.unique_faces_ok = true → env.remove_unreferenced_ok = true →
        env.fill_holes_ok = false →
        ∃ ws, glb_to_stl_repair env = .finished ws ∧ "Could not fill holes" ∈ ws) := by
  obtain ⟨fh, uf, ru, sc, fl⟩ := env
  refine ⟨?_, ?_, ?_, ?_⟩ <;>
    cases fh <;> cases uf <;> cases ru <;> cases sc <;> cases fl <;>
      simp [glb_to_stl_repair]

/-- C8 witness: a mesh whose hole filling fails but whose unguarded steps
succeed reaches the export with the hole-filling warning recorded. -/
theorem C8_substep_wrapping_witness :
    (RepairEnv.mk false true true .ok true).unique_faces_ok = true ∧
    (∃ ws, glb_to_stl_repair ⟨false, true, true, .ok, true⟩ = .finished ws ∧
      "Could not fill holes" ∈ ws) :=
  ⟨rfl, (C8_substep_wrapping ⟨false, true, true, .ok, true⟩).2.2.2 rfl rfl rfl⟩

/-- C10: with `sys.argv` of length exactly 6 but only one positional argument
after `"--"` (the guard counts the raw argv, not the stripped one), the guard
passes, the usage message is not printed, and reading `argv[1]` raises an
uncaught IndexError. -/
theorem C10_argv_guard :
    (["blender", "--background", "--python", "add_foundation_blender.py", "--",
        "input.glb"] : List String).length = 6 ∧
    stripArgs ["blender", "--background", "--python", "add_foundation_blender.py", "--",
        "input.glb"] = ["input.glb"] ∧
    add_foundation_main ["blender", "--background", "--python", "add_foundation_blender.py",
        "--", "input.glb"] (fun _ => true) pyFloatStub ≠ .usage ∧
    add_foundation_main ["blender", "--background", "--python", "add_foundation_blender.py",
        "--", "input.glb"] (fun _ => true) pyFloatStub = .indexError := by decide

/-- C2: for a non-empty scene whose objects each contribute 8 corners, the
accumulator's box contains every world-transformed corner, is tight (every
component is attained by some corner), and is invariant under any reordering
of the visited corners (hence of objects and of corners within objects). -/
theorem C2_bounding_box (objs : List MeshObject)
    (hne : objs ≠ []) (h8 : ∀ o ∈ objs, o.bound_box.length = 8) :
    (∀ p ∈ allWorldCorners objs,
        (accumulateBBox objs).min_coords.1 ≤ (p.x : WithTop ℚ) ∧
        (accumulateBBox objs).min_coords.2.1 ≤ (p.y : WithTop ℚ) ∧
        (accumulateBBox objs).min_coords.2.2 ≤ (p.z : WithTop ℚ) ∧
        (p.x : WithBot ℚ) ≤ (accumulateBBox objs).max_coords.1 ∧
        (p.y : WithBot ℚ) ≤ (accumulateBBox objs).max_coords.2.1 ∧
        (p.z : WithBot ℚ) ≤ (accumulateBBox objs).max_coords.2.2) ∧
    ((∃ p ∈ allWorldCorners objs, (accumulateBBox objs).min_coords.1 = (p.x : WithTop ℚ)) ∧
     (∃ p ∈ allWorldCorners objs, (accumulateBBox objs).min_coords.2.1 = (p.y : WithTop ℚ)) ∧
     (∃ p ∈ allWorldCorners objs, (accumulateBBox objs).min_coords.2.2 = (p.z : WithTop ℚ)) ∧
     (∃ p ∈ allWorldCorners objs, (accumulateBBox objs).max_coords.1 = (p.x : WithBot ℚ)) ∧
     (∃ p ∈ allWorldCorners objs, (accumulateBBox objs).max_coords.2.1 = (p.y : WithBot ℚ)) ∧
     (∃ p ∈ allWorldCorners objs, (accumulateBBox objs).max_coords.2.2 = (p.z : WithBot ℚ))) ∧
    (∀ objs' : List MeshObject,
        (allWorldCorners objs').Perm (allWorldCorners objs) →
        accumulateBBox objs' = accumulateBBox objs) := by
  have hpts : allWorldCorners objs ≠ [] := by
    obtain ⟨o, os, rfl⟩ := List.exists_cons_of_ne_nil hne
    have h8o : o.bound_box.length = 8 := h8 o (List.mem_cons_self _ _)
    intro hc
    have hlen : (allWorldCorners (o :: os)).length = 0 := by rw [hc]; rfl
    rw [allWorldCorners] at hlen
    simp [worldCorners, h8o] at hlen
  have hmapne : ∀ f : Vec3 → ℚ, (allWorldCorners objs).map f ≠ [] := by
    intro f h
    exact hpts (List.map_eq_nil_iff.mp h)
  rw [accumulateBBox_components objs]
  dsimp only
  refine ⟨?_, ?_, ?_⟩
  · intro p hp
    exact ⟨foldMinQ_le_mem _ _ _ (List.mem_map_of_mem _ hp),
      foldMinQ_le_mem _ _ _ (List.mem_map_of_mem _ hp),
      foldMinQ_le_mem _ _ _ (List.mem_map_of_mem _ hp),
      mem_le_foldMaxQ _ _ _ (List.mem_map_of_mem _ hp),
      mem_le_foldMaxQ _ _ _ (List.mem_map_of_mem _ hp),
      mem_le_foldMaxQ _ _ _ (List.mem_map_of_mem _ hp)⟩
  · refine ⟨?_, ?_, ?_, ?_, ?_, ?_⟩
    · obtain ⟨q, hq, heq⟩ := foldMinQ_top_mem _ (hmapne Vec3.x)
      obtain ⟨p, hp, rfl⟩ := List.mem_map.mp hq
      exact ⟨p, hp, heq⟩
    · obtain ⟨q, hq, heq⟩ := foldMinQ_top_mem _ (hmapne Vec3.y)
      obtain ⟨p, hp, rfl⟩ := List.mem_map.mp hq
      exact ⟨p, hp, heq⟩
    · obtain ⟨q, hq, heq⟩ := foldMinQ_top_mem _ (hmapne Vec3.z)
      obtain ⟨p, hp, rfl⟩ := List.mem_map.mp hq
      exact ⟨p, hp, heq⟩
    · obtain ⟨q, hq, heq⟩ := foldMaxQ_bot_mem _ (hmapne Vec3.x)
      obtain ⟨p, hp, rfl⟩ := List.mem_map.mp hq
      exact ⟨p, hp, heq⟩
    · obtain ⟨q, hq, heq⟩ := foldMaxQ_bot_mem _ (hmapne Vec3.y)
      obtain ⟨p, hp, rfl⟩ := List.mem_map.mp hq
      exact ⟨p, hp, heq⟩
    · obtain ⟨q, hq, heq⟩ := foldMaxQ_bot_mem _ (hmapne Vec3.z)
      obtain ⟨p, hp, rfl⟩ := List.mem_map.mp hq
      exact ⟨p, hp, heq⟩
  · intro objs' hperm
    rw [accumulateBBox_components objs']
    rw [foldMinQ_perm (hperm.map Vec3.x) ⊤, foldMinQ_perm (hperm.map Vec3.y) ⊤,
      foldMinQ_perm (hperm.map Vec3.z) ⊤, foldMaxQ_perm (hperm.map Vec3.x) ⊥,
      foldMaxQ_perm (hperm.map Vec3.y) ⊥, foldMaxQ_perm (hperm.map Vec3.z) ⊥]

/-- C2 witness: the unit cube object satisfies the hypotheses, and the x
minimum of its accumulated box is attained by one of its corners. -/
theorem C2_bounding_box_witness :
    ([unitCubeObj] ≠ ([] : List MeshObject) ∧
      ∀ o ∈ [unitCubeObj], o.bound_box.length = 8) ∧
    (∃ p ∈ allWorldCorners [unitCubeObj],
        (accumulateBBox [unitCubeObj]).min_coords.1 = (p.x : WithTop ℚ)) :=
  ⟨⟨by decide, by decide⟩, (C2_bounding_box [unitCubeObj] (by decide) (by decide)).2.1.1⟩

/-- C3 counterexample: on degenerate point geometry (max_dimension = 0) the
foundation stage does NOT fail: it silently generates a zero-radius cylinder
(thickness clamped to min_thickness), merges it, and exports successfully. -/
theorem C3_counterexample :
    maxDimension (computedBBox [pointObj]) = 0 ∧
    add_circular_foundation [pointObj] "out.stl" 0.1 0.05 0.05 =
      .exported .stl ⟨0, 0.05, 0, 0, -0.025⟩ := by
  have hext : fileExt "out.stl" = ".stl" := by decide
  constructor
  · norm_num [maxDimension, computedBBox, accumulateBBox, pointObj, idMat, worldCorners,
      matApply, initAcc, updateCorner, List.replicate, min_def, max_def]
  · norm_num [add_circular_foundation, hext, foundationSpecOf, computedBBox, accumulateBBox,
      pointObj, idMat, worldCorners, matApply, initAcc, updateCorner, List.replicate,
      min_def, max_def]

/-- C3 (amended): when max_dimension = 0 the stage proceeds without any
explicit failure for every supported output format: it produces a cylinder
of radius 0 and thickness min_thickness and exports it — through the STL
exporter for an ".stl" path, through the glTF exporter for a ".glb" or
".gltf" path. -/
theorem C3_degenerate_proceeds (objs : List MeshObject) (path : String) (mr tr mt : ℚ)
    (hne : objs ≠ []) (hmt : 0 ≤ mt)
    (hdeg : maxDimension (computedBBox objs) = 0) :
    (fileExt path = ".stl" →
        add_circular_foundation objs path mr tr mt =
          .exported .stl
            ⟨0, mt,
              ((computedBBox objs).min_coords.x + (computedBBox objs).max_coords.x) / 2,
              ((computedBBox objs).min_coords.y + (computedBBox objs).max_coords.y) / 2,
              (computedBBox objs).min_coords.z - mt / 2⟩) ∧
    (fileExt path = ".glb" ∨ fileExt path = ".gltf" →
        add_circular_foundation objs path mr tr mt =
          .exported .gltf
            ⟨0, mt,
              ((computedBBox objs).min_coords.x + (computedBBox objs).max_coords.x) / 2,
              ((computedBBox objs).min_coords.y + (computedBBox objs).max_coords.y) / 2,
              (computedBBox objs).min_coords.z - mt / 2⟩) := by
  obtain ⟨o, os, rfl⟩ := List.exists_cons_of_ne_nil hne
  have hmd : max ((computedBBox (o :: os)).max_coords.x - (computedBBox (o :: os)).min_coords.x)
      ((computedBBox (o :: os)).max_coords.y - (computedBBox (o :: os)).min_coords.y) = 0 :=
    hdeg
  have hspec : foundationSpecOf (computedBBox (o :: os)) mr tr mt =
      ⟨0, mt,
        ((computedBBox (o :: os)).min_coords.x + (computedBBox (o :: os)).max_coords.x) / 2,
        ((computedBBox (o :: os)).min_coords.y + (computedBBox (o :: os)).max_coords.y) / 2,
        (computedBBox (o :: os)).min_coords.z - mt / 2⟩ := by
    simp only [foundationSpecOf, FoundationSpec.mk.injEq]
    rw [hmd]
    norm_num [max_eq_right hmt]
  constructor
  · intro hstl
    simp [add_circular_foundation, hstl, hspec]
  · intro h
    rcases h with h | h <;> simp [add_circular_foundation, h, hspec]

/-- C3 witness: concrete degenerate input discharging the amended theorem's
hypotheses, exercised on both a ".stl" and a ".glb" output path. -/
theorem C3_degenerate_proceeds_witness :
    ([pointObj] ≠ ([] : List MeshObject) ∧ (0 : ℚ) ≤ 0.05 ∧
      maxDimension (computedBBox [pointObj]) = 0 ∧ fileExt "base.stl" = ".stl" ∧
      fileExt "base.glb" = ".glb") ∧
    add_circular_foundation [pointObj] "base.stl" 0.2 0.1 0.05 =
      .exported .stl
        ⟨0, 0.05,
          ((computedBBox [pointObj]).min_coords.x + (computedBBox [pointObj]).max_coords.x) / 2,
          ((computedBBox [pointObj]).min_coords.y + (computedBBox [pointObj]).max_coords.y) / 2,
          (computedBBox [pointObj]).min_coords.z - 0.05 / 2⟩ ∧
    add_circular_foundation [pointObj] "base.glb" 0.2 0.1 0.05 =
      .exported .gltf
        ⟨0, 0.05,
          ((computedBBox [pointObj]).min_coords.x + (computedBBox [pointObj]).max_coords.x) / 2,
          ((computedBBox [pointObj]).min_coords.y + (computedBBox [pointObj]).max_coords.y) / 2,
          (computedBBox [pointObj]).min_coords.z - 0.05 / 2⟩ :=
  ⟨⟨by decide, by norm_num,
    by
      norm_num [maxDimension, computedBBox, accumulateBBox, pointObj, idMat, worldCorners,
        matApply, initAcc, updateCorner, List.replicate, min_def, max_def],
    by decide, by decide⟩,
   (C3_degenerate_proceeds [pointObj] "base.stl" 0.2 0.1 0.05 (by decide) (by norm_num)
     (by
       norm_num [maxDimension, computedBBox, accumulateBBox, pointObj, idMat, worldCorners,
         matApply, initAcc, updateCorner, List.replicate, min_def, max_def])).1
     (by decide),
   (C3_degenerate_proceeds [pointObj] "base.glb" 0.2 0.1 0.05 (by decide) (by norm_num)
     (by
       norm_num [maxDimension, computedBBox, accumulateBBox, pointObj, idMat, worldCorners,
         matApply, initAcc, updateCorner, List.replicate, min_def, max_def])).2
     (Or.inl (by decide))⟩

/-- C4 counterexample: with the unit box, k = 10, thickness_ratio = 0.01 and
min_thickness = 0.05, the scaled value max_dimension * k * thickness_ratio =
0.1 is at least min_thickness, yet the scaled thickness is 0.1 while
k * thickness = 10 * 0.05 = 0.5 (the original thickness sat at the floor),
so thickness does not scale by k under the claim's condition. -/
theorem C4_counterexample :
    (0 : ℚ) < 10 ∧
    (0.05 : ℚ) ≤ maxDimension ⟨⟨0, 0, 0⟩, ⟨1, 1, 1⟩⟩ * 10 * 0.01 ∧
    (foundationSpecOf (scaleBBox 10 ⟨⟨0, 0, 0⟩, ⟨1, 1, 1⟩⟩) 0.1 0.01 0.05).foundation_thickness ≠
      10 * (foundationSpecOf ⟨⟨0, 0, 0⟩, ⟨1, 1, 1⟩⟩ 0.1 0.01 0.05).foundation_thickness := by
  refine ⟨by norm_num, ?_, ?_⟩ <;>
    norm_num [maxDimension, foundationSpecOf, scaleBBox, scaleVec, min_def, max_def]

/-- C4 (amended): scaling the box by k > 0 scales radius and the centers by
k exactly; thickness (and z) scale by k when BOTH the unscaled value
max_dimension * thickness_ratio and the scaled value k * max_dimension *
thickness_ratio are at least min_thickness; the floor itself is unchanged by
scaling and gives thickness = min_thickness whenever the scaled value is at
most min_thickness (hence for all sufficiently small k). -/
theorem C4_scale_equivariance (b : BBox) (k mr tr mt : ℚ) (hk : 0 < k) :
    (foundationSpecOf (scaleBBox k b) mr tr mt).foundation_radius =
        k * (foundationSpecOf b mr tr mt).foundation_radius ∧
    (foundationSpecOf (scaleBBox k b) mr tr mt).center_x =
        k * (foundationSpecOf b mr tr mt).center_x ∧
    (foundationSpecOf (scaleBBox k b) mr tr mt).center_y =
        k * (foundationSpecOf b mr tr mt).center_y ∧
    (mt ≤ maxDimension b * tr → mt ≤ k * maxDimension b * tr →
        (foundationSpecOf (scaleBBox k b) mr tr mt).foundation_thickness =
            k * (foundationSpecOf b mr tr mt).foundation_thickness ∧
        (foundationSpecOf (scaleBBox k b) mr tr mt).foundation_z =
            k * (foundationSpecOf b mr tr mt).foundation_z) ∧
    (k * maxDimension b * tr ≤ mt →
        (foundationSpecOf (scaleBBox k b) mr tr mt).foundation_thickness = mt) := by
  have hmd : maxDimension (scaleBBox k b) = k * maxDimension b := by
    unfold maxDimension scaleBBox scaleVec
    dsimp only
    rw [show k * b.max_coords.x - k * b.min_coords.x =
        k * (b.max_coords.x - b.min_coords.x) from by ring,
      show k * b.max_coords.y - k * b.min_coords.y =
        k * (b.max_coords.y - b.min_coords.y) from by ring]
    exact (mul_max_of_nonneg _ _ hk.le).symm
  have hspec : ∀ (c : BBox),
      foundationSpecOf c mr tr mt =
        ⟨(maxDimension c / 2) * (1 + mr), max (maxDimension c * tr) mt,
          (c.min_coords.x + c.max_coords.x) / 2, (c.min_coords.y + c.max_coords.y) / 2,
          c.min_coords.z - max (maxDimension c * tr) mt / 2⟩ :=
    fun c => rfl
  rw [hspec (scaleBBox k b), hspec b]
  dsimp only
  refine ⟨?_, ?_, ?_, ?_, ?_⟩
  · rw [hmd]; ring
  · simp only [scaleBBox, scaleVec]
    ring
  · simp only [scaleBBox, scaleVec]
    ring
  · intro h1 h2
    have e1 : max (maxDimension b * tr) mt = maxDimension b * tr := max_eq_left h1
    have e2 : max (k * maxDimension b * tr) mt = k * maxDimension b * tr := max_eq_left h2
    constructor
    · rw [hmd, e2, e1]
      ring
    · rw [hmd]
      simp only [scaleBBox, scaleVec]
      rw [e2, e1]
      ring
  · intro h
    rw [hmd]
    exact max_eq_right h

/-- C4 witness: the amended scale-equivariance applied to the unit box with
k = 2 and the default ratios. -/
theorem C4_scale_equivariance_witness :
    (0 : ℚ) < 2 ∧
    (foundationSpecOf (scaleBBox 2 ⟨⟨0, 0, 0⟩, ⟨1, 1, 1⟩⟩) 0.1 0.05 0.05).foundation_radius =
      2 * (foundationSpecOf ⟨⟨0, 0, 0⟩, ⟨1, 1, 1⟩⟩ 0.1 0.05 0.05).foundation_radius :=
  ⟨by norm_num,
   (C4_scale_equivariance ⟨⟨0, 0, 0⟩, ⟨1, 1, 1⟩⟩ 2 0.1 0.05 0.05 (by norm_num)).1⟩

/-- C6: for a non-empty scene, an output path whose lower-cased extension is
none of ".stl", ".glb", ".gltf" makes the merge-and-export step report the
unsupported format and return failure with no file written; an ".stl" path
goes to the STL exporter and a ".glb"/".gltf" path to the glTF exporter. -/
theorem C6_export_dispatch (objs : List MeshObject) (path : String) (mr tr mt : ℚ)
    (hne : objs ≠ []) :
    (fileExt path ≠ ".stl" → fileExt path ≠ ".glb" → fileExt path ≠ ".gltf" →
        add_circular_foundation objs path mr tr mt = .unsupported (fileExt path)) ∧
    (fileExt path = ".stl" →
        add_circular_foundation objs path mr tr mt =
          .exported .stl (foundationSpecOf (computedBBox objs) mr tr mt)) ∧
    ((fileExt path = ".glb" ∨ fileExt path = ".gltf") →
        add_circular_foundation objs path mr tr mt =
          .exported .gltf (foundationSpecOf (computedBBox objs) mr tr mt)) := by
  obtain ⟨o, os, rfl⟩ := List.exists_cons_of_ne_nil hne
  refine ⟨?_, ?_, ?_⟩
  · intro h1 h2 h3
    simp [add_circular_foundation, h1, h2, h3]
  · intro h
    simp [add_circular_foundation, h]
  · intro h
    rcases h with h | h <;> simp [add_circular_foundation, h]

/-- C6 witness: a ".obj" output path hits the unsupported-format failure. -/
theorem C6_export_dispatch_witness :
    (fileExt "model.obj" ≠ ".stl" ∧ fileExt "model.obj" ≠ ".glb" ∧
      fileExt "model.obj" ≠ ".gltf" ∧ [unitCubeObj] ≠ ([] : List MeshObject)) ∧
    add_circular_foundation [unitCubeObj] "model.obj" 0.1 0.05 0.05 =
      .unsupported (fileExt "model.obj") :=
  ⟨⟨by decide, by decide, by decide, by decide⟩,
   (C6_export_dispatch [unitCubeObj] "model.obj" 0.1 0.05 0.05 (by decide)).1
     (by decide) (by decide) (by decide)⟩

/-- C7 counterexample: a run whose smoothing subprocess fails after the
repair stage created its `temp.stl` returns from stage 1 with an empty
cleanup list: the existing temp artifact is not removed, contradicting
"cleanup of all temp artifacts already created is attempted regardless of
which stage failed". -/
theorem C7_counterexample :
    (DriverEnv.mk false true true false false true).repairTempStlExists = true ∧
    process_with_foundation_main ["process_with_foundation.py", "model.glb", "out.stl"]
        (fun _ => true) ⟨false, true, true, false, false, true⟩ =
      ⟨.errSmoothing, [.pyGlbToStl], []⟩ := by decide

/-- C7 (amended): cleanup is partial and path-dependent: on a stage-1
(smoothing) failure the driver removes nothing; on a stage-2 (conversion)
failure it removes only the temp smoothed STL if present; on stage-3 failure
and on success it removes the temp smoothed STL and the temp GLB that exist;
the repair stage's `temp.stl` is never removed by the driver. -/
theorem C7_cleanup_behavior (argv : List String) (pathExists : String → Bool)
    (env : DriverEnv) (hlen : 3 ≤ argv.length)
    (hex : pathExists (argv.getD 1 "") = true) :
    (env.smoothOk = false →
        (process_with_foundation_main argv pathExists env).removed = []) ∧
    (env.smoothOk = true → env.convertOk = false →
        (process_with_foundation_main argv pathExists env).removed =
          if env.smoothedStlExists then [.smoothedStl] else []) ∧
    (env.smoothOk = true → env.convertOk = true →
        (process_with_foundation_main argv pathExists env).removed =
          (if env.smoothedStlExists then [TempFile.smoothedStl] else []) ++
            (if env.smoothedGlbExists then [TempFile.smoothedGlb] else [])) ∧
    TempFile.repairTempStl ∉ (process_with_foundation_main argv pathExists env).removed := by
  have h3 : ¬ argv.length < 3 := by omega
  have hex2 : pathExists (argv[1]?.getD "") = true := by
    rw [List.getD_eq_getElem?_getD] at hex
    exact hex
  obtain ⟨so, co, fo, se, ge, re⟩ := env
  cases so <;> cases co <;> cases fo <;> cases se <;> cases ge <;>
    simp [process_with_foundation_main, h3, hex2]

/-- C7 witness: a fully successful run removes no `temp.stl` either. -/
theorem C7_cleanup_behavior_witness :
    (3 ≤ (["process_with_foundation.py", "model.glb", "out.stl"] : List String).length) ∧
    TempFile.repairTempStl ∉
      (process_with_foundation_main ["process_with_foundation.py", "model.glb", "out.stl"]
        (fun _ => true) ⟨true, true, true, true, true, true⟩).removed :=
  ⟨by decide,
   (C7_cleanup_behavior ["process_with_foundation.py", "model.glb", "out.stl"] (fun _ => true)
     ⟨true, true, true, true, true, true⟩ (by decide) rfl).2.2.2⟩

/-- C9 counterexample: the foundation tool converts `float(argv[2])` (line
116) BEFORE the existence check (line 119), so an invocation with a missing
input and a non-numeric ratio argument crashes with an uncaught ValueError
and never reaches the not-found message, refuting the claim for the
foundation tool. -/
theorem C9_counterexample :
    (fun _ => false : String → Bool) "missing.glb" = false ∧
    add_foundation_main ["blender", "--background", "--python", "add_foundation_blender.py",
        "--", "missing.glb", "out.stl", "abc"] (fun _ => false) pyFloatStub = .valueError ∧
    FMainOutcome.valueError ≠ .notFound "missing.glb" := by decide

/-- C9 (amended): a missing input path makes the pipeline driver print
not-found and return with no subprocess launched and nothing removed or
created; the foundation tool does the same PROVIDED its optional ratio
arguments parse as floats (the conversions at lines 116-117 run before the
existence check) — with a non-parsable ratio argument it instead dies with
an uncaught ValueError before checking existence (still before any import,
subprocess, or file output). -/
theorem C9_missing_input :
    (∀ (argv : List String) (pathExists : String → Bool) (env : DriverEnv),
        3 ≤ argv.length → pathExists (argv.getD 1 "") = false →
        process_with_foundation_main argv pathExists env =
          ⟨.notFound (argv.getD 1 ""), [], []⟩) ∧
    (∀ (sysArgv : List String) (pathExists : String → Bool)
        (parseFloat : String → Option ℚ) (input output : String) (m t : ℚ),
        6 ≤ sysArgv.length →
        (stripArgs sysArgv)[0]? = some input →
        (stripArgs sysArgv)[1]? = some output →
        (if (stripArgs sysArgv).length > 2 then parseFloat ((stripArgs sysArgv).getD 2 "")
          else some 0.1) = some m →
        (if (stripArgs sysArgv).length > 3 then parseFloat ((stripArgs sysArgv).getD 3 "")
          else some 0.05) = some t →
        pathExists input = false →
        add_foundation_main sysArgv pathExists parseFloat = .notFound input) ∧
    (∀ (sysArgv : List String) (pathExists : String → Bool)
        (parseFloat : String → Option ℚ) (input output : String),
        6 ≤ sysArgv.length →
        (stripArgs sysArgv)[0]? = some input →
        (stripArgs sysArgv)[1]? = some output →
        (if (stripArgs sysArgv).length > 2 then parseFloat ((stripArgs sysArgv).getD 2 "")
          else some 0.1) = none →
        add_foundation_main sysArgv pathExists parseFloat = .valueError) := by
  refine ⟨?_, ?_, ?_⟩
  · intro argv pathExists env hlen hne
    have h3 : ¬ argv.length < 3 := by omega
    have hne2 : pathExists (argv[1]?.getD "") = false := by
      rw [List.getD_eq_getElem?_getD] at hne
      exact hne
    simp [process_with_foundation_main, h3, hne2]
  · intro sysArgv pathExists parseFloat input output m t hlen h0 h1 hm ht hne
    have h6 : ¬ sysArgv.length < 6 := by omega
    have hm2 : (if 2 < (stripArgs sysArgv).length then
        parseFloat ((stripArgs sysArgv)[2]?.getD "") else some 0.1) = some m := by
      simpa using hm
    have ht2 : (if 3 < (stripArgs sysArgv).length then
        parseFloat ((stripArgs sysArgv)[3]?.getD "") else some 0.05) = some t := by
      simpa using ht
    simp [add_foundation_main, h6, h0, h1, hm2, ht2, hne]
  · intro sysArgv pathExists parseFloat input output hlen h0 h1 hm
    have h6 : ¬ sysArgv.length < 6 := by omega
    have hm2 : (if 2 < (stripArgs sysArgv).length then
        parseFloat ((stripArgs sysArgv)[2]?.getD "") else some 0.1) = none := by
      simpa using hm
    simp [add_foundation_main, h6, h0, h1, hm2]

/-- C9 witness: the driver and the foundation tool at concrete missing-input
invocations, with and without a parsable optional ratio argument. -/
theorem C9_missing_input_witness :
    process_with_foundation_main ["process_with_foundation.py", "missing.glb", "out.stl"]
        (fun _ => false) ⟨true, true, true, false, false, false⟩ =
      ⟨.notFound "missing.glb", [], []⟩ ∧
    add_foundation_main ["blender", "--background", "--python", "add_foundation_blender.py",
        "--", "missing.glb", "out.stl"] (fun _ => false) pyFloatStub =
      .notFound "missing.glb" ∧
    add_foundation_main ["blender", "--background", "--python", "add_foundation_blender.py",
        "--", "missing.glb", "out.stl", "abc"] (fun _ => false) pyFloatStub =
      .valueError :=
  ⟨C9_missing_input.1 ["process_with_foundation.py", "missing.glb", "out.stl"]
      (fun _ => false) ⟨true, true, true, false, false, false⟩ (by decide) rfl,
   C9_missing_input.2.1 ["blender", "--background", "--python", "add_foundation_blender.py",
      "--", "missing.glb", "out.stl"] (fun _ => false) pyFloatStub "missing.glb" "out.stl"
      0.1 0.05 (by decide) (by decide) (by decide) rfl rfl rfl,
   C9_missing_input.2.2 ["blender", "--background", "--python", "add_foundation_blender.py",
      "--", "missing.glb", "out.stl", "abc"] (fun _ => false) pyFloatStub
      "missing.glb" "out.stl" (by decide) (by decide) (by decide) (by decide)⟩
